import Mathlib

/-!
Verification development for the EETHAL Foundation website repository.

The repository consists of Hugo markdown content (story bundles under
`content/stories/`), two git publishing shell scripts
(`scripts/publish_stories.sh` and `scripts/publish.sh`), and a set of
Python story-management scripts (`read_stories.py` / `add_story.py` /
`delete_story.py`) documented in `scripts/README.md` but whose sources are
not part of this snapshot.  The shell scripts and the story front matter
are embedded directly from the source; the Python pipeline components are
modelled from the specification, as marked on each definition.
-/

namespace Eethal

/-! ## Git publishing scripts (`scripts/publish_stories.sh`, `scripts/publish.sh`)

The two scripts are sequences of git commands guarded by flag and state
checks.  We embed them as pure functions from an abstract repository state
(branch name plus which classes of pending changes exist) to an exit code,
a final state, and the list of state-mutating actions the run performs, in
order.  Read-only git commands (`git status`, `git diff`, `git log`) are
reflected in the state fields, not in the action trace. -/

/-- A state-mutating action performed by one of the publishing scripts:
the git commands that stage, commit, merge, push, pull or switch branches,
plus the CSS build step of `publish.sh` (which rewrites a working-tree
file). -/
inductive Act where
  | stage (path : String)
  | commit (msg : String)
  | push (branch : String)
  | pull (branch : String)
  | checkout (branch : String)
  | merge (branch : String)
  | buildCss
deriving DecidableEq, Repr

/-- Holds (`true`) for the actions the claims about deployment single out:
pushing, merging, or switching branches. -/
def Act.isPushMergeCheckout : Act → Bool
  | Act.push _ => true
  | Act.merge _ => true
  | Act.checkout _ => true
  | _ => false

/-- Abstract repository state as observed by `publish_stories.sh`:
the current branch, whether `content/stories/` has uncommitted changes
(unstaged modifications or untracked files), the counts of new untracked
`content/stories/*/index.md` files and of modified tracked ones, and
whether anything outside `content/stories/` is uncommitted (the deploy
section checks the whole tree). -/
structure Repo where
  branch : String
  storiesChanged : Bool
  newStories : Nat
  modifiedStories : Nat
  otherChanges : Bool
deriving DecidableEq, Repr

/-- Result of a script run: exit status, final repository state, and the
ordered trace of state-mutating actions. -/
structure RunResult where
  exit : Nat
  repo : Repo
  ops : List Act
deriving DecidableEq, Repr

/-- The commit-message generation of `publish_stories.sh` (lines 121-127):
given the count `n` of new stories and `m` of modified stories, chooses
between the Add / Update / combined forms, with the word "story" singular
exactly when the count interpolated by the `$(... && echo "story" ||
echo "stories")` subshell equals 1. -/
def commitMsg (n m : Nat) : String :=
  if 0 < n ∧ m = 0 then
    "Add " ++ toString n ++ " new " ++ (if n = 1 then "story" else "stories")
  else if n = 0 ∧ 0 < m then
    "Update " ++ toString m ++ " " ++ (if m = 1 then "story" else "stories")
  else
    "Add " ++ toString n ++ " new and update " ++ toString m ++ " existing "
      ++ (if n + m = 1 then "story" else "stories")

/-- The deploy section of `publish_stories.sh` (lines 160-242): refuses to
run unless the current branch is `dev` (exit 1), refuses if anything is
uncommitted (exit 1), otherwise pushes dev, checks out master and pulls
it, then either cancels (checkout dev, exit 0) or merges dev, pushes
master, and checks out dev again (exit 0).  `confirmDeploy` is the user's
answer to the merge confirmation prompt. -/
def deploySection (confirmDeploy : Bool) (r : Repo) : RunResult :=
  if r.branch ≠ "dev" then ⟨1, r, []⟩
  else if r.storiesChanged ∨ r.otherChanges then ⟨1, r, []⟩
  else
    let pre := [Act.push "dev", Act.checkout "master", Act.pull "master"]
    if confirmDeploy then
      ⟨0, { r with branch := "dev" },
        pre ++ [Act.merge "dev", Act.push "master", Act.checkout "dev"]⟩
    else
      ⟨0, { r with branch := "dev" }, pre ++ [Act.checkout "dev"]⟩

/-- The script `scripts/publish_stories.sh`: if `content/stories/` has changes, a dry
run prints and exits 0; otherwise the user confirms, the changes are
staged and committed with `commitMsg`, and pushed when `--push` was given;
with no story changes that whole block is skipped.  Finally the deploy
section runs when `--deploy` was given.  `confirmCommit` is the answer to
the commit confirmation prompt. -/
def publishStories (dryRun pushFlag deploy confirmCommit confirmDeploy : Bool)
    (r : Repo) : RunResult :=
  if r.storiesChanged then
    if dryRun then ⟨0, r, []⟩
    else if confirmCommit then
      let ops₁ := [Act.stage "content/stories/",
                   Act.commit (commitMsg r.newStories r.modifiedStories)]
      let r₁ : Repo :=
        { r with storiesChanged := false, newStories := 0, modifiedStories := 0 }
      let ops₂ := if pushFlag then ops₁ ++ [Act.push r.branch] else ops₁
      if deploy then
        let d := deploySection confirmDeploy r₁
        ⟨d.exit, d.repo, ops₂ ++ d.ops⟩
      else ⟨0, r₁, ops₂⟩
    else ⟨0, r, []⟩
  else
    if deploy then deploySection confirmDeploy r
    else ⟨0, r, []⟩

/-- Abstract repository state as observed by `publish.sh`: current branch,
whether `static/css/styles.css` differs from HEAD after the CSS build,
whether other files have unstaged changes, whether anything is already
staged, whether untracked files exist, the number of files reported
changed (for the auto-generated message), and how many commits dev is
ahead of master. -/
structure CssRepo where
  branch : String
  stylesModified : Bool
  otherUnstaged : Bool
  stagedChanges : Bool
  untracked : Bool
  changedFileCount : Nat
  commitsAhead : Nat
deriving DecidableEq, Repr

/-- Result of a `publish.sh` run. -/
structure CssRunResult where
  exit : Nat
  repo : CssRepo
  ops : List Act
deriving DecidableEq, Repr

/-- The script `scripts/publish.sh`: refuses off the dev branch (exit 1); builds the
minified CSS; stages `static/css/styles.css` when it differs from HEAD;
if anything is then pending, a dry run exits 0 right there, otherwise
everything is committed (with `-m` message `msgArg`, else the interactive
answer `userMsg`, else an auto-generated one); a dry run with a clean
tree also exits 0; if dev is not ahead of master it exits 0; otherwise it
pushes dev, merges dev into master via checkout/pull/merge, pushes
master, and checks out dev again. -/
def publish (dryRun : Bool) (msgArg userMsg : Option String)
    (r : CssRepo) : CssRunResult :=
  if r.branch ≠ "dev" then ⟨1, r, []⟩
  else
    let ops₀ := [Act.buildCss]
    let ops₁ := if r.stylesModified
      then ops₀ ++ [Act.stage "static/css/styles.css"] else ops₀
    let r₁ : CssRepo :=
      { r with stylesModified := false,
               stagedChanges := r.stagedChanges || r.stylesModified }
    let hasChanges := r₁.otherUnstaged || r₁.stagedChanges || r₁.untracked
    if hasChanges then
      if dryRun then ⟨0, r₁, ops₁⟩
      else
        let msg := match msgArg with
          | some m => m
          | none => match userMsg with
            | some m => m
            | none =>
                "Update " ++ toString r.changedFileCount ++ " file(s) for deployment"
        let r₂ : CssRepo :=
          { r₁ with otherUnstaged := false, stagedChanges := false,
                    untracked := false, changedFileCount := 0,
                    commitsAhead := r₁.commitsAhead + 1 }
        let ops₂ := ops₁ ++ [Act.stage "-A", Act.commit msg]
        -- after the commit, dev is at least one commit ahead, so the
        -- nothing-to-deploy early exit cannot fire on this path
        ⟨0, { r₂ with branch := "dev", commitsAhead := 0 },
          ops₂ ++ [Act.push "dev", Act.checkout "master", Act.pull "master",
                   Act.merge "dev", Act.push "master", Act.checkout "dev"]⟩
    else
      if dryRun then ⟨0, r₁, ops₁⟩
      else if r₁.commitsAhead = 0 then ⟨0, r₁, ops₁⟩
      else
        ⟨0, { r₁ with branch := "dev", commitsAhead := 0 },
          ops₁ ++ [Act.push "dev", Act.checkout "master", Act.pull "master",
                   Act.merge "dev", Act.push "master", Act.checkout "dev"]⟩

/-! ## The story metadata pipeline

The Python scripts `read_stories.py` and `add_story.py` are documented in
`scripts/README.md` but their sources are not part of this snapshot, so
the pipeline components below are modelled from the specification (Row
Source, Asset Fetcher, Text Extractor, Metadata Classifier, Bundle
Writer), with the column layout and filter/skip rules the README states. -/

/-- Modelled from the spec: one row of the input spreadsheet/CSV read by
the Row Source (`read_stories.py` / `add_story.py` are missing from the
snapshot).  Columns A-K: English/Tamil titles, English/Tamil PDF links,
cover image link, English/Tamil StoryWeaver links, translators,
English/Tamil descriptions, and the status flag. -/
structure Row where
  englishTitle : String
  tamilTitle : String
  englishPdf : String
  tamilPdf : String
  image : String
  swLinkEng : String
  swLinkTam : String
  translators : String
  englishDescription : String
  tamilDescription : String
  status : String
deriving DecidableEq, Repr

/-- Modelled from the spec: the inclusion predicate of the Row Source —
the row carries a story link (a StoryWeaver link in column F or G). -/
def hasStoryLink (r : Row) : Bool :=
  r.swLinkEng ≠ "" || r.swLinkTam ≠ ""

/-- Modelled from the spec: a row is selected for the batch iff it meets
the inclusion predicate and its status flag has not been marked "done". -/
def rowSelected (r : Row) : Bool :=
  hasStoryLink r && r.status ≠ "done"

/-- Modelled from the spec: the Row Source — filters the tabular input to
the rows selected for processing. -/
def rowSource (rows : List Row) : List Row :=
  rows.filter rowSelected

/-- Modelled from the spec: a document handed to the Text Extractor — the
text that direct extraction recovers and the rendered page images an OCR
pass would read (each page abstracted to the text OCR would return). -/
structure Document where
  directText : String
  renderedPages : List String
deriving Repr

/-- Modelled from the spec: the garbled-text heuristic — the ratio of
non-printable characters in the directly recovered text (characters below
the printable ASCII range other than whitespace, or the replacement
character U+FFFD of a misdecoded encoding) exceeds 30%.  Empty text
counts as garbled. -/
def nonPrintable (c : Char) : Bool :=
  (c.toNat < 32 && c ≠ ' ' && c ≠ '\t' && c ≠ '\n') || c = (Char.ofNat 0xFFFD)

/-- Modelled from the spec: classify recovered text as garbled. -/
def isGarbled (s : String) : Bool :=
  s.length = 0 || (s.toList.filter nonPrintable).length * 10 > s.length * 3

/-- Modelled from the spec: the OCR pass over the rendered pages —
concatenates the text recovered from each page image. -/
def ocrPass (d : Document) : String :=
  String.intercalate "\n" d.renderedPages

/-- Modelled from the spec: the Text Extractor — direct extraction first;
the OCR pass over rendered pages runs only when the direct text is
classified as garbled.  Returns the recovered text together with whether
an OCR call was made. -/
def extractText (d : Document) : String × Bool :=
  let direct := d.directText
  if isGarbled direct then (ocrPass d, true) else (direct, false)

/-- Modelled from the spec: the local file store seen by the Asset
Fetcher, an association of destination paths to file contents (abstracted
to strings). -/
def FileStore := List (String × String)

/-- Lookup in the local file store. -/
def FileStore.lookup (fs : FileStore) (path : String) : Option String :=
  match fs with
  | [] => none
  | (p, b) :: rest => if p = path then some b else FileStore.lookup rest path

/-- Modelled from the spec: resolving a cloud-storage share link to a
direct byte stream; the network is abstracted to a pure function from
link to contents. -/
def resolveLink (download : String → String) (url : String) : String :=
  download url

/-- Modelled from the spec: the Asset Fetcher — caching keyed by final
destination path.  If the destination path already exists locally the
cached file is returned and nothing is downloaded; otherwise the link is
resolved, the bytes are written at the destination path, and the fetch is
reported as a download (the `Bool` is `true` when a download happened). -/
def fetchAsset (download : String → String) (fs : FileStore)
    (url destPath : String) : FileStore × String × Bool :=
  match FileStore.lookup fs destPath with
  | some cached => (fs, cached, false)
  | none =>
      let bytes := resolveLink download url
      ((destPath, bytes) :: fs, bytes, true)

/-- Modelled from the spec: the boilerplate pattern rules of the Metadata
Classifier — header lines (the organisation header), footer lines (page
footers / attribution footers), and reading-level notices. -/
def boilerplatePatterns : List String :=
  ["EETHAL", "Page ", "www.storyweaver.org.in", "This book was made possible",
   "இந்த நிலை", "This Level "]

/-- Holds when the first list of characters leads the second one. -/
def leadsWith : List Char → List Char → Bool
  | [], _ => true
  | _ :: _, [] => false
  | a :: as, b :: bs => a = b && leadsWith as bs

/-- Modelled from the spec: a line matches the boilerplate pattern rules
iff one of the patterns leads the line. -/
def isBoilerplate (line : String) : Bool :=
  boilerplatePatterns.any (fun p => leadsWith p.toList line.toList)

/-- Modelled from the spec: the metadata returned by the classifier. -/
structure StoryMeta where
  title : String
  translator : String
  summaryLines : List String
deriving DecidableEq, Repr

/-- Modelled from the spec: the Metadata Classifier — drops every line of
the extracted page that matches the boilerplate pattern rules, then takes
the first remaining line as the title, the second as the translator name,
and the rest as the descriptive summary.  A field whose line does not
exist is returned empty. -/
def classifyPage (pageLines : List String) : StoryMeta :=
  let clean := pageLines.filter (fun l => !isBoilerplate l)
  { title := clean.headD ""
    translator := (clean.drop 1).headD ""
    summaryLines := clean.drop 2 }

/-- Modelled from the spec: the slug derived from an English title
(documented as "My Story" → "my-story"): alphanumeric characters are
lowercased and every other character becomes a hyphen. -/
def slugOf (title : String) : String :=
  String.map (fun c => if c.isAlphanum then c.toLower else '-') title

/-- Modelled from the spec: a content bundle as produced by the Bundle
Writer (`add_story.py` is missing from the snapshot) — the record it was
generated from, the name of its cover image file, and the files present
in its directory. -/
structure Bundle where
  record : Row
  coverFile : String
  files : List String
deriving DecidableEq, Repr

/-- Modelled from the spec: the bundle the writer emits for an accepted
record — an `index.md` front-matter document plus the cover image. -/
def mkBundle (r : Row) : Bundle :=
  { record := r, coverFile := "cover.jpg", files := ["index.md", "cover.jpg"] }

/-- Modelled from the spec: a bundle is complete when its directory holds
both the front-matter document and the cover image it names. -/
def bundleComplete (b : Bundle) : Bool :=
  decide ("index.md" ∈ b.files) && decide (b.coverFile ∈ b.files)

/-- Modelled from the spec: the bundles on disk, keyed by story slug. -/
def Store := List (String × Bundle)

/-- Lookup of the bundle at a slug. -/
def Store.find : Store → String → Option Bundle
  | [], _ => none
  | (s', b) :: rest, s => if s' = s then some b else Store.find rest s

/-- Insertion of a bundle at a slug, replacing an existing entry. -/
def Store.insert : Store → String → Bundle → Store
  | [], s, b => [(s, b)]
  | (s', b') :: rest, s, b =>
      if s' = s then (s, b) :: rest else (s', b') :: Store.insert rest s b

/-- Holds when the store has a complete bundle at the slug. -/
def Store.completeAt (st : Store) (s : String) : Bool :=
  match st.find s with
  | some b => bundleComplete b
  | none => false

/-- Modelled from the spec: the Bundle Writer acting on one accepted
record — skips the record when its bundle already exists and is complete,
otherwise writes the record's bundle at its slug. -/
def writeBundle (st : Store) (r : Row) : Store :=
  let s := slugOf r.englishTitle
  if st.completeAt s then st else st.insert s (mkBundle r)

/-- Modelled from the spec: the add-stories sync — runs the Bundle Writer
over the accepted records in order. -/
def syncStories (records : List Row) (st : Store) : Store :=
  records.foldl writeBundle st

/-- Modelled from the spec: one step of the batch pipeline — writes the
record's bundle and appends the record to the visit trace. -/
def pipelineStep (acc : Store × List Row) (r : Row) : Store × List Row :=
  (writeBundle acc.1 r, acc.2 ++ [r])

/-- Modelled from the spec: the metadata-extraction pipeline as a batch
run — a single sequential fold over the selected rows, starting from an
empty store and an empty visit trace. -/
def runPipeline (rows : List Row) : Store × List Row :=
  (rowSource rows).foldl pipelineStep ([], [])

/-! ## Story bundles under `content/stories/`

The front matter below is transcribed from the `index.md` files of the
story bundles in the snapshot.  The cover image files they name are
binary assets not included in the snapshot; the bundle directory layout
(`index.md` plus the cover image) is modelled from the documented story
directory structure in `scripts/README.md`. -/

/-- A pair of per-language values (used for titles, PDF links and
descriptions in the front matter). -/
structure Bilingual where
  english : String
  tamil : String
deriving DecidableEq, Repr

/-- The nested `metadata:` block of `my-big-family/index.md`. -/
structure StoryInfo where
  originalAuthor : String
  originalUrl : String
  translators : List String
  illustrator : String
  publisher : String
deriving DecidableEq, Repr

/-- The `attribution:` block of `my-big-family/index.md`. -/
structure Attribution where
  required : Bool
  license : String
  englishText : String
  tamilText : String
  moreInfoUrl : String
deriving DecidableEq, Repr

/-- The Hugo front matter of a story's `index.md`.  Fields that appear
only in some of the files are `Option`s / default to the empty list. -/
structure FrontMatter where
  title : String
  date : String
  description : Option String
  descriptions : Option Bilingual
  pdfs : Bilingual
  titles : Bilingual
  info : Option StoryInfo
  translators : List String
  tags : List String
  coverImage : String
  attribution : Option Attribution
  draft : Bool
deriving DecidableEq, Repr

/-- The translators named by a front matter: the top-level `translators:`
list together with any listed inside the `metadata:` block. -/
def FrontMatter.allTranslators (fm : FrontMatter) : List String :=
  fm.translators ++ (match fm.info with
    | some i => i.translators
    | none => [])

/-- Front matter of `content/stories/my-big-family/index.md`. -/
def myBigFamily : FrontMatter :=
  { title := "My Big Family"
    date := "2026-01-05"
    description := some "Sometimes it can be tiring and frustrating to have a big family. Would being alone be easier?"
    descriptions := none
    pdfs :=
      { tamil := "https://drive.google.com/file/d/1Y1aVFu8H0GYPGHh6X6bI5jxGd-6M8o-6/preview"
        english := "https://drive.google.com/file/d/1H2C112-o23jTFrB0KX0mbas73zRwSnGf/preview" }
    titles := { english := "My Big Family", tamil := "என்னுடைய பெரிய குடும்பம்" }
    info := some
      { originalAuthor := "Lưu Thị Lương"
        originalUrl := "https://storyweaver.org.in/stories/22924-my-big-family"
        translators := ["Roshini Rangarajan"]
        illustrator := "Lê Thị Anh Thư"
        publisher := "Room to Read" }
    translators := []
    tags := []
    coverImage := "cover.jpg"
    attribution := some
      { required := true
        license := "CC BY 4.0"
        englishText := "My Big Family (English), translated by Alisha Berger, based on original story Nhà có đông người thì sao? (Vietnamese), written by Lưu Thị Lương, illustrated by Lê Thị Anh Thư, published by Room to Read (© Room to Read, 2015) under a CC BY 4.0 license on StoryWeaver. Read, create and translate stories for free on www.storyweaver.org.in"
        tamilText := "என்னுடைய பெரிய குடும்பம் (Tamil), translated by Roshini Rangarajan, (© Roshini Rangarajan, 2022) from My Big Family (English), by Lưu Thị Lương based on original story Nhà có đông người thì sao? (Vietnamese), written by Lưu Thị Lương, illustrated by Lê Thị Anh Thư, published by Room to Read under a CC BY 4.0 license on StoryWeaver. Read, create and translate stories for free on www.storyweaver.org.in"
        moreInfoUrl := "https://storyweaver.org.in/attributions" }
    draft := false }

/-- Front matter of `content/stories/senzo-and-the-sun/index.md`. -/
def senzoAndTheSun : FrontMatter :=
  { title := "Senzo and the Sun"
    date := "2026-02-21"
    description := none
    descriptions := some
      { english := "The morning sun creeps over the horizon and peeps through the leaves, waking Senzo. Gogo’s rooster shakes his wings, stretches his neck and crows. Koek-a-loek-a-loo! Join Senzo and the sun as they journey through the day"
        tamil := "காலை சூரியன் அடிவானத்தில் ஊர்ந்து சென்று இலைகள் வழியாக எட்டிப்பார்த்து, சென்சோவை எழுப்புகிறது. கோகோவின் சேவல் அதன் இறக்கைகளை அசைத்து, கழுத்தை நீட்டி, கூவுகிறது. கோயெக்-எ-லோயெக்-எ-லூ! சென்சோவும் சூரியனும் பகலில் பயணிக்கும்போது அவர்களுடன் சேருங்கள்." }
    pdfs :=
      { tamil := "https://drive.google.com/file/d/18bhbg65C4SMeoryTRurCS4E-A-9lL5K3/preview"
        english := "https://drive.google.com/file/d/1gHj5g5T0LU6oJN02a26gOFmQkzhyGopx/preview" }
    titles := { english := "Senzo and the Sun", tamil := "சென்சோ மற்றும் சூரியன்" }
    info := none
    translators := ["Paula Sharon"]
    tags := ["storyweaver", "verified"]
    coverImage := "cover.png"
    attribution := none
    draft := false }

/-- Front matter of the story `Who Is Incharge of the Payment?` (its
`index.md` is included in the snapshot alongside
`senzo-and-the-sun/index.md`). -/
def whoIsIncharge : FrontMatter :=
  { title := "Who Is Incharge of the Payment?"
    date := "2026-02-21"
    description := none
    descriptions := some
      { english := "Payment? Every year in rains villagers have problems travelling. Lalu Chacha and other villagers demand a pakka road for their village. A road project gets approved under MGNREGA work but will the villagers be paid on time?"
        tamil := "பணம் செலுத்துவதா? ஒவ்வொரு வருடமும் மழைக்காலங்களில் கிராம மக்கள் பயணம் செய்வதில் சிரமப்படுகிறார்கள். லாலு சாச்சாவும் மற்ற கிராம மக்களும் தங்கள் கிராமத்திற்கு பக்கா சாலை அமைக்க வேண்டும் என்று கோருகிறார்கள். MGNREGA திட்டத்தின் கீழ் ஒரு சாலைத் திட்டம் அங்கீகரிக்கப்படுகிறது, ஆனால் கிராம மக்களுக்கு சரியான நேரத்தில் பணம் வழங்கப்படுமா?" }
    pdfs :=
      { tamil := "https://drive.google.com/file/d/1JMSOGB0Zn96FMC82LFZ03H8ysqt1p9O_/preview"
        english := "https://drive.google.com/file/d/1JOHWTJNXU6XuzyiL161taQil26ViSyqX/preview" }
    titles := { english := "Who Is Incharge of the Payment?", tamil := "பணம் செலுத்துவதற்கான பொறுப்பாளர் யார்?" }
    info := none
    translators := ["Paula Sharon"]
    tags := ["storyweaver", "verified"]
    coverImage := "cover.png"
    attribution := none
    draft := false }

/-- Front matter of `content/stories/the-hare-s-story/index.md`. -/
def theHaresStory : FrontMatter :=
  { title := "The Hare\x27s Story"
    date := "2026-02-21"
    description := none
    descriptions := some
      { english := "There is no water in the animal kingdom and so the king called a meeting to find a solution. Everyone shows up, except for the hare. At the meeting, they all agree to dig a well, but not let the hare drink from it. The hare had his own plan. What do you think it was?"
        tamil := "விலங்கு உலகில் தண்ணீர் இல்லை, அதனால் ராஜா ஒரு தீர்வைக் கண்டுபிடிக்க ஒரு கூட்டத்தைக் கூட்டினார். முயலைத் தவிர மற்ற அனைவரும் வருகிறார்கள். கூட்டத்தில், அவர்கள் அனைவரும் ஒரு கிணறு வெட்ட ஒப்புக்கொள்கிறார்கள், ஆனால் முயலை அதிலிருந்து குடிக்க விடமாட்டார்கள். முயலுக்கு அதன் சொந்த திட்டம் இருந்தது. அது என்னவென்று நீங்கள் நினைக்கிறீர்கள்?" }
    pdfs :=
      { tamil := "https://drive.google.com/file/d/1N8IAX1TK2ZQ23OAhod0QGb5lBF36q1hc/preview"
        english := "https://drive.google.com/file/d/1HFTJzyYO57HXfqO3CiRZmgYzW5dAQOj_/preview" }
    titles := { english := "The Hare\x27s Story", tamil := "முயலின் கதை" }
    info := none
    translators := ["Alisha Berger"]
    tags := ["storyweaver", "verified"]
    coverImage := "cover.png"
    attribution := none
    draft := false }

/-- A story bundle directory: its name under `content/stories/`, the
front-matter documents its `index.md` holds, and the files in the
directory. -/
structure ContentBundle where
  dir : String
  frontMatterDocs : List FrontMatter
  files : List String
deriving DecidableEq, Repr

/-- Modelled from the spec: the files of a bundle directory — the cover
image binaries are not included in the snapshot, so the layout
(`index.md` plus the named cover image) follows the documented story
directory structure. -/
def bundleFiles (fm : FrontMatter) : List String :=
  ["index.md", fm.coverImage]

/-- The story bundles under `content/stories/` in the snapshot. -/
def storyBundles : List ContentBundle :=
  [{ dir := "my-big-family", frontMatterDocs := [myBigFamily],
     files := bundleFiles myBigFamily },
   { dir := "senzo-and-the-sun", frontMatterDocs := [senzoAndTheSun],
     files := bundleFiles senzoAndTheSun },
   { dir := "who-is-incharge-of-the-payment", frontMatterDocs := [whoIsIncharge],
     files := bundleFiles whoIsIncharge },
   { dir := "the-hare-s-story", frontMatterDocs := [theHaresStory],
     files := bundleFiles theHaresStory }]

/-- The fields the claim requires of a front matter: titles, PDF links,
translators, a description and a cover image name are all present. -/
def FrontMatter.hasRequiredFields (fm : FrontMatter) : Bool :=
  fm.titles.english ≠ "" && fm.titles.tamil ≠ "" &&
  fm.pdfs.english ≠ "" && fm.pdfs.tamil ≠ "" &&
  fm.allTranslators ≠ [] &&
  (fm.description.isSome || fm.descriptions.isSome) &&
  fm.coverImage ≠ ""

/-- A well-formed content bundle: exactly one front-matter document, that
document carries the required fields, and the directory pairs the
document with exactly the cover image file its `coverImage` field names. -/
def bundleWellFormed (b : ContentBundle) : Bool :=
  b.frontMatterDocs.length = 1 &&
  b.frontMatterDocs.all FrontMatter.hasRequiredFields &&
  b.frontMatterDocs.all (fun fm =>
    decide ("index.md" ∈ b.files) && decide (fm.coverImage ∈ b.files) &&
    b.files = ["index.md", fm.coverImage])

/-! ## Theorems -/

/-- C10: the commit message generated by `publish_stories.sh` from the
counts of new (`n`) and modified (`m`) story files is "Add N new
story/stories" when `n > 0` and `m = 0`, "Update M story/stories" when
`n = 0` and `m > 0`, and "Add N new and update M existing story/stories"
otherwise, with the singular word "story" exactly when the relevant count
(`n`, `m`, or `n + m` respectively) equals 1. -/
theorem commitMsg_matches_claim (n m : Nat) :
    (0 < n ∧ m = 0 →
      commitMsg n m
        = "Add " ++ toString n ++ " new " ++ (if n = 1 then "story" else "stories")) ∧
    (n = 0 ∧ 0 < m →
      commitMsg n m
        = "Update " ++ toString m ++ " " ++ (if m = 1 then "story" else "stories")) ∧
    (¬(0 < n ∧ m = 0) → ¬(n = 0 ∧ 0 < m) →
      commitMsg n m
        = "Add " ++ toString n ++ " new and update " ++ toString m ++ " existing "
            ++ (if n + m = 1 then "story" else "stories")) := by
  refine ⟨?_, ?_, ?_⟩
  · intro h
    rw [commitMsg, if_pos h]
  · intro h
    rw [commitMsg, if_neg (by omega), if_pos h]
  · intro h₁ h₂
    rw [commitMsg, if_neg h₁, if_neg h₂]

/-- Witness for C10 at the concrete counts 2 and 1. -/
theorem commitMsg_matches_claim_witness :
    commitMsg 2 1 = "Add 2 new and update 1 existing stories" :=
  ((commitMsg_matches_claim 2 1).2.2 (by decide) (by decide)).trans (by decide)

/-- C2: a row is in the batch produced by the Row Source iff it is a row
of the input that carries a story link and whose status flag is not
"done". -/
theorem rowSource_mem_iff (rows : List Row) (r : Row) :
    r ∈ rowSource rows ↔ r ∈ rows ∧ hasStoryLink r = true ∧ r.status ≠ "done" := by
  simp [rowSource, rowSelected, List.mem_filter, and_assoc]

/-- C3: the Text Extractor reports an OCR call exactly when the directly
recovered text is classified as garbled, and when it is not garbled the
direct text is returned with no OCR call. -/
theorem extractText_ocr_iff (d : Document) :
    (extractText d).2 = isGarbled d.directText ∧
    ((extractText d).2 = true ↔ extractText d = (ocrPass d, true)) ∧
    (isGarbled d.directText = false → extractText d = (d.directText, false)) := by
  by_cases h : isGarbled d.directText
  · refine ⟨?_, ?_, ?_⟩
    · simp [extractText, h]
    · simp [extractText, h]
    · intro hc
      rw [h] at hc
      cases hc
  · refine ⟨?_, ?_, ?_⟩
    · simp [extractText, h]
    · simp [extractText, h]
    · intro _
      simp [extractText, h]

/-- Witness for C3: a document whose direct text is clean is returned
as-is, with no OCR call. -/
theorem extractText_ocr_iff_witness :
    extractText ⟨"Hello world", ["page one text"]⟩ = ("Hello world", false) :=
  (extractText_ocr_iff ⟨"Hello world", ["page one text"]⟩).2.2 (by decide)

/-- C4: the Asset Fetcher caches by final destination path — when the
destination path already exists locally the cached file is returned with
no download, and a second request resolving to the same destination path
(whatever its link) yields the same local file as the first, again with
no download. -/
theorem fetchAsset_cache (download : String → String) (fs : FileStore)
    (url₁ url₂ path cached : String) :
    (FileStore.lookup fs path = some cached →
      fetchAsset download fs url₁ path = (fs, cached, false)) ∧
    fetchAsset download (fetchAsset download fs url₁ path).1 url₂ path
      = ((fetchAsset download fs url₁ path).1,
         (fetchAsset download fs url₁ path).2.1, false) := by
  constructor
  · intro h
    simp [fetchAsset, h]
  · cases h : FileStore.lookup fs path with
    | some c => simp [fetchAsset, h]
    | none => simp [fetchAsset, h, FileStore.lookup]

/-- Witness for C4 at a store already holding the destination path. -/
theorem fetchAsset_cache_witness :
    fetchAsset (fun _ => "downloaded") [("images/cover.jpg", "cachedbytes")]
        "https://drive.example/x" "images/cover.jpg"
      = ([("images/cover.jpg", "cachedbytes")], "cachedbytes", false) :=
  (fetchAsset_cache (fun _ => "downloaded") [("images/cover.jpg", "cachedbytes")]
      "https://drive.example/x" "https://drive.example/y" "images/cover.jpg"
      "cachedbytes").1 (by decide)

/-- Every line surviving the boilerplate filter is not boilerplate. -/
theorem mem_clean_not_boilerplate {pageLines : List String} {l : String}
    (h : l ∈ pageLines.filter (fun x => !isBoilerplate x)) :
    isBoilerplate l = false := by
  have := List.of_mem_filter h
  simpa using this

/-- The default-valued head of a list of non-boilerplate lines is not
boilerplate, provided the default is not. -/
theorem headD_not_boilerplate {m : List String}
    (h : ∀ l ∈ m, isBoilerplate l = false) (d : String)
    (hd : isBoilerplate d = false) : isBoilerplate (m.headD d) = false := by
  cases m with
  | nil => simpa using hd
  | cons a t => simpa using h a (by simp)

/-- C6: the Metadata Classifier returns a title, a translator name and a
descriptive summary for every page of extracted text, and no line
matching the boilerplate pattern rules appears in any returned field. -/
theorem classifyPage_no_boilerplate (pageLines : List String) :
    isBoilerplate (classifyPage pageLines).title = false ∧
    isBoilerplate (classifyPage pageLines).translator = false ∧
    ∀ l ∈ (classifyPage pageLines).summaryLines, isBoilerplate l = false := by
  have hmem : ∀ l ∈ pageLines.filter (fun x => !isBoilerplate x),
      isBoilerplate l = false := fun _ hl => mem_clean_not_boilerplate hl
  refine ⟨?_, ?_, ?_⟩
  · exact headD_not_boilerplate hmem "" (by decide)
  · exact headD_not_boilerplate
      (fun l hl => hmem l (List.mem_of_mem_drop hl)) "" (by decide)
  · intro l hl
    exact hmem l (List.mem_of_mem_drop hl)

/-- Witness for C6 on a concrete page carrying a header, a footer and a
reading-level notice. -/
theorem classifyPage_no_boilerplate_witness :
    isBoilerplate
      (classifyPage ["EETHAL", "Lazy Anansi", "Translated by Somebody",
                     "A tale about a spider", "இந்த நிலை 2"]).title = false ∧
    isBoilerplate "A tale about a spider" = false :=
  ⟨(classifyPage_no_boilerplate
      ["EETHAL", "Lazy Anansi", "Translated by Somebody",
       "A tale about a spider", "இந்த நிலை 2"]).1,
   (classifyPage_no_boilerplate
      ["EETHAL", "Lazy Anansi", "Translated by Somebody",
       "A tale about a spider", "இந்த நிலை 2"]).2.2
      "A tale about a spider" (by decide)⟩

/-- The visit trace of the pipeline fold is the starting trace followed
by the records folded over, in order. -/
theorem pipeline_trace_aux (l : List Row) (st : Store) (acc : List Row) :
    (l.foldl pipelineStep (st, acc)).2 = acc ++ l := by
  induction l generalizing st acc with
  | nil => simp
  | cons r t ih =>
      show (t.foldl pipelineStep (writeBundle st r, acc ++ [r])).2 = acc ++ r :: t
      rw [ih]
      simp

/-- C7: the metadata-extraction pipeline is a linear single pass — its
visit trace is exactly the selected rows in input order, that trace is a
sublist of the input, and no record is visited more often than it occurs
in the input; the pipeline is a total function, so every run terminates. -/
theorem pipeline_single_pass (rows : List Row) :
    (runPipeline rows).2 = rowSource rows ∧
    List.Sublist (rowSource rows) rows ∧
    ∀ r : Row, ((runPipeline rows).2).count r ≤ rows.count r := by
  have ht : (runPipeline rows).2 = rowSource rows := by
    unfold runPipeline
    rw [pipeline_trace_aux]
    simp
  refine ⟨ht, List.filter_sublist rows, ?_⟩
  intro r
  rw [ht]
  exact (List.filter_sublist rows).count_le r

/-- The bundle the writer emits is complete. -/
theorem bundleComplete_mkBundle (r : Row) : bundleComplete (mkBundle r) = true := rfl

/-- Finding at the inserted slug returns the inserted bundle. -/
theorem find_insert_self (st : Store) (s : String) (b : Bundle) :
    (st.insert s b).find s = some b := by
  induction st with
  | nil => simp [Store.insert, Store.find]
  | cons hd tl ih =>
      obtain ⟨s', b'⟩ := hd
      by_cases h : s' = s <;> simp [Store.insert, Store.find, h, ih]

/-- Finding at a different slug is unaffected by an insertion. -/
theorem find_insert_ne (st : Store) (s t : String) (b : Bundle) (h : s ≠ t) :
    (st.insert s b).find t = st.find t := by
  induction st with
  | nil => simp [Store.insert, Store.find, h]
  | cons hd tl ih =>
      obtain ⟨s', b'⟩ := hd
      by_cases h' : s' = s
      · subst h'
        simp [Store.insert, Store.find, h]
      · simp [Store.insert, Store.find, h']
        by_cases h'' : s' = t <;> simp [h'', ih]

/-- When the slug is not yet complete the writer inserts the record's
bundle there. -/
theorem writeBundle_of_not_complete (st : Store) (r : Row)
    (h : ¬ st.completeAt (slugOf r.englishTitle) = true) :
    writeBundle st r = st.insert (slugOf r.englishTitle) (mkBundle r) := by
  simp [writeBundle, h]

/-- After the writer processes a record, the record's slug holds a
complete bundle. -/
theorem completeAt_writeBundle_self (st : Store) (r : Row) :
    (writeBundle st r).completeAt (slugOf r.englishTitle) = true := by
  by_cases h : st.completeAt (slugOf r.englishTitle)
  · simp [writeBundle, h]
  · rw [writeBundle_of_not_complete st r h]
    simp [Store.completeAt, find_insert_self, bundleComplete_mkBundle]

/-- The writer never destroys completeness at any slug. -/
theorem completeAt_writeBundle_mono (st : Store) (r : Row) (s : String)
    (h : st.completeAt s = true) :
    (writeBundle st r).completeAt s = true := by
  by_cases hc : st.completeAt (slugOf r.englishTitle)
  · simpa [writeBundle, hc]
  · rw [writeBundle_of_not_complete st r hc]
    by_cases hs : slugOf r.englishTitle = s
    · subst hs
      exact absurd h hc
    · unfold Store.completeAt
      rw [find_insert_ne st _ s _ hs]
      unfold Store.completeAt at h
      exact h

/-- The sync never destroys completeness at any slug. -/
theorem completeAt_sync_mono (rs : List Row) (st : Store) (s : String)
    (h : st.completeAt s = true) :
    (syncStories rs st).completeAt s = true := by
  induction rs generalizing st with
  | nil => simpa [syncStories]
  | cons r t ih =>
      show (syncStories t (writeBundle st r)).completeAt s = true
      exact ih _ (completeAt_writeBundle_mono st r s h)

/-- After a sync, every processed record's slug holds a complete bundle. -/
theorem completeAt_sync_mem (rs : List Row) (st : Store) :
    ∀ r ∈ rs, (syncStories rs st).completeAt (slugOf r.englishTitle) = true := by
  induction rs generalizing st with
  | nil => simp
  | cons a t ih =>
      intro r hr
      rcases List.mem_cons.1 hr with rfl | hr'
      · exact completeAt_sync_mono t (writeBundle st r) _
          (completeAt_writeBundle_self st r)
      · exact ih (writeBundle st a) r hr'

/-- A record whose bundle is already complete is skipped. -/
theorem writeBundle_skip (st : Store) (r : Row)
    (h : st.completeAt (slugOf r.englishTitle) = true) :
    writeBundle st r = st := by
  simp [writeBundle, h]

/-- A sync over records whose bundles are all complete changes nothing. -/
theorem syncStories_fixed (rs : List Row) (st : Store)
    (h : ∀ r ∈ rs, st.completeAt (slugOf r.englishTitle) = true) :
    syncStories rs st = st := by
  induction rs with
  | nil => rfl
  | cons a t ih =>
      show syncStories t (writeBundle st a) = st
      rw [writeBundle_skip st a (h a (List.mem_cons_self a t))]
      exact ih fun r hr => h r (List.mem_cons_of_mem a hr)

/-- C1: the Bundle Writer is idempotent — running the add-stories sync a
second time over the same accepted records changes nothing: the bundles
on disk after two consecutive runs equal the bundles after one run. -/
theorem syncStories_idempotent (rows : List Row) (st : Store) :
    syncStories (rowSource rows) (syncStories (rowSource rows) st)
      = syncStories (rowSource rows) st :=
  syncStories_fixed _ _ (completeAt_sync_mem _ st)

/-- C5: every story bundle under `content/stories/` pairs exactly one
front-matter document — carrying titles, PDF links, translators, a
description and a `coverImage` field — with the cover image file that its
`coverImage` field names. -/
theorem storyBundles_wellFormed : storyBundles.all bundleWellFormed = true := by
  decide

/-- C8 counterexample: a `publish.sh --dry-run` invocation on the dev
branch with a modified `static/css/styles.css` stages that file before
the dry-run exit, so the dry run does not leave the git repository state
unchanged. -/
theorem publish_dry_run_stages_css :
    Act.stage "static/css/styles.css" ∈
      (publish true none none
        { branch := "dev", stylesModified := true, otherUnstaged := false,
          stagedChanges := false, untracked := false, changedFileCount := 1,
          commitsAhead := 0 }).ops := by
  decide

/-- C8 (amended): `publish_stories.sh --dry-run` without `--deploy` exits
0 with no action and an unchanged repository; `publish.sh --dry-run` on
the dev branch exits 0 and performs nothing beyond building the CSS and
possibly staging `static/css/styles.css` — in particular it never
commits, merges, pushes, or switches branches — and off the dev branch it
exits 1 having done nothing. -/
theorem dry_run_behavior :
    (∀ (pushFlag cc cd : Bool) (r : Repo),
        publishStories true pushFlag false cc cd r = ⟨0, r, []⟩) ∧
    (∀ (msgArg userMsg : Option String) (r : CssRepo), r.branch = "dev" →
        (publish true msgArg userMsg r).exit = 0 ∧
        ∀ a ∈ (publish true msgArg userMsg r).ops,
          a = Act.buildCss ∨ a = Act.stage "static/css/styles.css") ∧
    (∀ (msgArg userMsg : Option String) (r : CssRepo), r.branch ≠ "dev" →
        publish true msgArg userMsg r = ⟨1, r, []⟩) := by
  refine ⟨?_, ?_, ?_⟩
  · intro pushFlag cc cd r
    by_cases h : r.storiesChanged <;> simp [publishStories, h]
  · intro msgArg userMsg r h
    have hne : ¬ r.branch ≠ "dev" := by simp [h]
    by_cases hs : r.stylesModified <;>
      by_cases hc : (r.otherUnstaged || (r.stagedChanges || r.stylesModified)
          || r.untracked) = true <;>
      simp_all [publish]
  · intro msgArg userMsg r h
    simp [publish, h]

/-- Witness for C8 (amended): both dry runs at concrete states. -/
theorem dry_run_behavior_witness :
    publishStories true false false false false
        { branch := "main", storiesChanged := true, newStories := 2,
          modifiedStories := 0, otherChanges := false }
      = ⟨0, { branch := "main", storiesChanged := true, newStories := 2,
              modifiedStories := 0, otherChanges := false }, []⟩ ∧
    (publish true none none
        { branch := "dev", stylesModified := true, otherUnstaged := false,
          stagedChanges := false, untracked := false, changedFileCount := 1,
          commitsAhead := 0 }).exit = 0 :=
  ⟨dry_run_behavior.1 false false false _,
   (dry_run_behavior.2.1 none none _ rfl).1⟩

/-- C9 counterexample: `publish_stories.sh --deploy` run off the dev
branch with pending story changes exits 0, not 1, when the user declines
the commit confirmation (the "Cancelled" path), so the claimed
unconditional exit status 1 is wrong. -/
theorem publish_stories_deploy_cancel_exit_zero :
    publishStories false false true false false
        { branch := "feature", storiesChanged := true, newStories := 1,
          modifiedStories := 0, otherChanges := false }
      = ⟨0, { branch := "feature", storiesChanged := true, newStories := 1,
              modifiedStories := 0, otherChanges := false }, []⟩ := by
  decide

/-- C9 (amended): off the dev branch, `publish_stories.sh --deploy` never
pushes, merges, or checks out, and exits 1 except on the cancelled-commit
path, which exits 0; `publish.sh` off the dev branch exits 1 having done
nothing; and every run of the deploy flow (and of `publish.sh`) that
completes with exit status 0 ends with the repository on the dev
branch. -/
theorem deploy_branch_guard :
    (∀ (cc cd : Bool) (r : Repo), r.branch ≠ "dev" →
        (∀ a ∈ (publishStories false false true cc cd r).ops,
          a.isPushMergeCheckout = false) ∧
        (publishStories false false true cc cd r).exit
          = (if r.storiesChanged = true ∧ cc = false then 0 else 1)) ∧
    (∀ (dry : Bool) (msgArg userMsg : Option String) (r : CssRepo),
        r.branch ≠ "dev" → publish dry msgArg userMsg r = ⟨1, r, []⟩) ∧
    (∀ (cd : Bool) (r : Repo), (deploySection cd r).exit = 0 →
        (deploySection cd r).repo.branch = "dev") ∧
    (∀ (dry : Bool) (msgArg userMsg : Option String) (r : CssRepo),
        (publish dry msgArg userMsg r).exit = 0 →
        (publish dry msgArg userMsg r).repo.branch = "dev") := by
  refine ⟨?_, ?_, ?_, ?_⟩
  · intro cc cd r h
    by_cases h1 : r.storiesChanged <;> by_cases h2 : cc <;>
      simp [publishStories, deploySection, h, h1, h2, Act.isPushMergeCheckout]
  · intro dry msgArg userMsg r h
    simp [publish, h]
  · intro cd r h
    by_cases hb : r.branch ≠ "dev"
    · simp [deploySection, hb] at h
    · by_cases hu : (r.storiesChanged ∨ r.otherChanges)
      · simp [deploySection, hb, hu] at h
      · by_cases hcd : cd <;> simp [deploySection, hb, hu, hcd]
  · intro dry msgArg userMsg r h
    by_cases hb : r.branch ≠ "dev"
    · simp [publish, hb] at h
    · have hdev : r.branch = "dev" := not_not.1 hb
      by_cases hs : r.stylesModified <;>
        by_cases hc : (r.otherUnstaged || (r.stagedChanges || r.stylesModified)
            || r.untracked) = true <;>
        by_cases hd : dry <;>
        simp_all [publish] <;>
        (split_ifs <;> simp_all)

/-- Witness for C9 (amended): the refusal exit status and the
back-on-dev guarantee at concrete states. -/
theorem deploy_branch_guard_witness :
    (publishStories false false true true false
        { branch := "feature", storiesChanged := false, newStories := 0,
          modifiedStories := 0, otherChanges := false }).exit = 1 ∧
    (deploySection true
        { branch := "dev", storiesChanged := false, newStories := 0,
          modifiedStories := 0, otherChanges := false }).repo.branch = "dev" :=
  ⟨((deploy_branch_guard.1 true false _ (by decide)).2).trans (by decide),
   deploy_branch_guard.2.2.1 true _ (by decide)⟩

end Eethal
